import Mathlib

/-! # acct_gather_profile/prometheus: schema registry, sample encoder, delivery client

A shallow embedding of `acct_gather_profile_prometheus.c`.

* The file-scope variables of the plugin (`prometheus_conf`,
  `g_profile_running`, `g_job`, `tables`, `tables_max_len`, `tables_cur_len`)
  are gathered in `plugin_state` and passed explicitly.
* `size_t` quantities are natural numbers: every allocation of the plugin goes
  through `xrealloc`, which aborts the process when memory runs out, so they
  stay far below `2 ^ 64`.  The narrowing of a `size_t` to the `int` result of
  `create_dataset`, the `%d` conversion of the `uint32_t` job id and the
  `size_t` subtraction `strlen(...) - 1` are modelled with explicit wrap-around.
* Pointers that may be null are options.  Reading through a null pointer ends
  the run (`run.null_deref`).
* libcurl and the daemon are a `transport` record: the results of the libcurl
  calls, the response body, the debug flag.  Log calls other than the one
  printing the response body are left out, and so is the `error_cnt` counter,
  which only gates a log call.
* The newline-stripping loop records every buffer index it touches.  The only
  index outside the buffer it can form is `SIZE_MAX`, the byte right before
  the buffer; that byte is a field of `transport`, so statements about the loop
  hold whatever it contains.
* The `%.2f` conversion of a double is done by the C library; it is the
  parameter `fmt_f2` of the encoder, applied to the eight bytes of the value.
-/

set_option linter.unusedVariables false

namespace Prometheus

/-! ## Constants of the Slurm headers -/

/-- Modelled from the spec: the Slurm header defining the profile categories
is not part of the repository; the "unset" sentinel is the smallest category
value. -/
def ACCT_GATHER_PROFILE_NOT_SET : Nat := 0

/-- Modelled from the spec: the Slurm header defining the profile categories
is not part of the repository; "none" is the category right above the
"unset" sentinel, so that `p <= NONE` means `NOT_SET` or `NONE`. -/
def ACCT_GATHER_PROFILE_NONE : Nat := 1

/-- Modelled from the spec: the Slurm header defining the profile categories
is not part of the repository; "all" sets every bit of the 32-bit mask. -/
def ACCT_GATHER_PROFILE_ALL : Nat := 0xffffffff

/-- Modelled from the spec: the success return code of the Slurm headers,
which are not part of the repository. -/
def SLURM_SUCCESS : Int := 0

/-- Modelled from the spec: the designated error value of the Slurm headers,
which are not part of the repository. -/
def SLURM_ERROR : Int := -1

/-- Modelled from the spec: the field type tag `enum{UInt64, Double}` together
with the "not set" sentinel terminating a field-definition sequence; the
declaring Slurm header is not part of the repository. -/
inductive acct_gather_profile_field_type_t where
  | PROFILE_FIELD_NOT_SET
  | PROFILE_FIELD_UINT64
  | PROFILE_FIELD_DOUBLE
  deriving DecidableEq

open acct_gather_profile_field_type_t

/-- Modelled from the spec: one (field name, field type) pair of a dataset
definition; the declaring Slurm header is not part of the repository. -/
structure acct_gather_profile_dataset_t where
  name : String
  type : acct_gather_profile_field_type_t
  deriving DecidableEq

/-! ## Machine integers -/

/-- Conversion of an unsigned value to a 32-bit `int` (two's complement):
what `return tables_cur_len - 1;` does in a function returning `int`, and how
`%d` reads a `uint32_t` argument. -/
def to_int (n : Nat) : Int :=
  if n % 2 ^ 32 < 2 ^ 31 then ((n % 2 ^ 32 : Nat) : Int)
  else ((n % 2 ^ 32 : Nat) : Int) - 2 ^ 32

/-! ## Data model -/

/-- The plugin configuration `slurm_prometheus_conf_t` (the field `def` of the
source is spelled `def_`). -/
structure slurm_prometheus_conf_t where
  host : String
  def_ : Nat
  deriving DecidableEq

/-- One entry of the registry, `table_t`.  `name` is `none` for a null
pointer, which is what a zero-filled slot holds. -/
structure table_t where
  names : List String
  types : List acct_gather_profile_field_type_t
  size : Nat
  name : Option String
  deriving DecidableEq

/-- The fields of `stepd_step_rec_t` that the plugin reads. -/
structure stepd_step_rec_t where
  profile : Nat
  jobid : Nat
  node_name : String
  deriving DecidableEq

/-- The file-scope variables of the plugin.  `tables` is the backing store:
it has `tables_max_len` slots, of which the first `tables_cur_len` are in
use; `tables = []` is the null pointer. -/
structure plugin_state where
  prometheus_conf : slurm_prometheus_conf_t
  g_profile_running : Nat
  g_job : Option stepd_step_rec_t
  tables : List table_t
  tables_max_len : Nat
  tables_cur_len : Nat
  deriving DecidableEq

/-- The state right after the plugin is loaded and configured: the static
initialisers of the source. -/
def initial_state (conf : slurm_prometheus_conf_t) : plugin_state :=
  { prometheus_conf := conf
    g_profile_running := ACCT_GATHER_PROFILE_NOT_SET
    g_job := none
    tables := []
    tables_max_len := 0
    tables_cur_len := 0 }

/-- Slurm's `xrealloc` on an array of `n` elements: the old contents are kept
(cut to the new length) and every new element is zero-filled. -/
def xrealloc {α : Type} (zero : α) (p : List α) (n : Nat) : List α :=
  p.take n ++ List.replicate (n - p.length) zero

/-- A zero-filled `table_t`. -/
def zero_table : table_t :=
  { names := [], types := [], size := 0, name := none }

/-! ## Schema registry -/

/-- The `switch (dataset_loc->type)` of `create_dataset`: stores the type tag
at index `size` of the freshly grown `types` array. -/
def store_type (types : List acct_gather_profile_field_type_t) (size : Nat) :
    acct_gather_profile_field_type_t → List acct_gather_profile_field_type_t
  | PROFILE_FIELD_UINT64 => types.set size PROFILE_FIELD_UINT64
  | PROFILE_FIELD_DOUBLE => types.set size PROFILE_FIELD_DOUBLE
  | PROFILE_FIELD_NOT_SET => types

/-- The `while (dataset_loc && dataset_loc->type != PROFILE_FIELD_NOT_SET)`
loop of `create_dataset`.  The list holds the array entries before the
terminating sentinel of a well-formed array, so running off the list is
reaching that sentinel. -/
def copy_fields (table : table_t) : List acct_gather_profile_dataset_t → table_t
  | [] => table
  | f :: rest =>
    if f.type = PROFILE_FIELD_NOT_SET then table
    else
      let names := (xrealloc "" table.names (table.size + 1)).set table.size f.name
      let types := store_type (xrealloc PROFILE_FIELD_NOT_SET table.types (table.size + 1))
        table.size f.type
      copy_fields { table with names := names, types := types, size := table.size + 1 } rest

/-- The function `acct_gather_profile_p_create_dataset`: returns the `int`
result and the new state.  `dataset = none` is a null `dataset` pointer. -/
def acct_gather_profile_p_create_dataset (s : plugin_state) (name : String)
    (parent : Int) (dataset : Option (List acct_gather_profile_dataset_t)) :
    Int × plugin_state :=
  if s.g_profile_running ≤ ACCT_GATHER_PROFILE_NONE then (SLURM_ERROR, s)
  else
    let grow := decide (s.tables_cur_len = s.tables_max_len)
    let max_len :=
      if grow then (if s.tables_max_len = 0 then s.tables_max_len + 1 else s.tables_max_len) * 2
      else s.tables_max_len
    let tables := if grow then xrealloc zero_table s.tables max_len else s.tables
    let slot := tables.getD s.tables_cur_len zero_table
    let table := copy_fields { slot with name := some name, size := 0 } (dataset.getD [])
    let cur_len := s.tables_cur_len + 1
    (to_int (cur_len - 1),
     { s with tables := tables.set s.tables_cur_len table
              tables_max_len := max_len
              tables_cur_len := cur_len })

/-- One `create_dataset` call: its three arguments. -/
structure create_call where
  name : String
  parent : Int
  dataset : Option (List acct_gather_profile_dataset_t)
  deriving DecidableEq

/-- Runs a sequence of `create_dataset` calls, collecting the returned values
in call order. -/
def run_creates (s : plugin_state) : List create_call → List Int × plugin_state
  | [] => ([], s)
  | c :: rest =>
    let r := acct_gather_profile_p_create_dataset s c.name c.parent c.dataset
    let rs := run_creates r.2 rest
    (r.1 :: rs.1, rs.2)

/-- The schema a call asks for: the entries before the first sentinel. -/
def requested_fields (dataset : Option (List acct_gather_profile_dataset_t)) :
    List acct_gather_profile_dataset_t :=
  (dataset.getD []).takeWhile (fun f => decide (f.type ≠ PROFILE_FIELD_NOT_SET))

/-- The function `_free_tables`: the calls `xfree(table->names[j])` it makes,
in order, each recorded as the pair (table index `i`, field index `j`).  The
bound of the inner loop is `tables->size`, the `size` of the first element of
the array. -/
def _free_tables (s : plugin_state) : List (Nat × Nat) :=
  (List.range s.tables_cur_len).flatMap fun i =>
    (List.range (s.tables.getD 0 zero_table).size).map fun j => (i, j)

/-- The field-name entries that table `i` owns, for every stored table: the
pairs `(i, j)` with `j` below table `i`'s own `size`. -/
def owned_names (s : plugin_state) : List (Nat × Nat) :=
  (List.range s.tables_cur_len).flatMap fun i =>
    (List.range (s.tables.getD i zero_table).size).map fun j => (i, j)

/-! ## Profiling state controller -/

/-- The function `_determine_profile`, with the globals it reads as
arguments. -/
def _determine_profile (g_profile_running job_profile conf_def : Nat) : Nat :=
  if g_profile_running ≠ ACCT_GATHER_PROFILE_NOT_SET then g_profile_running
  else if job_profile ≥ ACCT_GATHER_PROFILE_NONE then job_profile
  else conf_def

/-- The function `acct_gather_profile_p_node_step_start`. -/
def acct_gather_profile_p_node_step_start (s : plugin_state) (job : stepd_step_rec_t) :
    Int × plugin_state :=
  let s1 := { s with g_job := some job }
  (SLURM_SUCCESS,
   { s1 with g_profile_running :=
      _determine_profile s1.g_profile_running job.profile s1.prometheus_conf.def_ })

/-- The function `acct_gather_profile_p_is_active`. -/
def acct_gather_profile_p_is_active (s : plugin_state) (type : Nat) : Bool :=
  if s.g_profile_running ≤ ACCT_GATHER_PROFILE_NONE then false
  else decide (type = ACCT_GATHER_PROFILE_NOT_SET) || decide (s.g_profile_running &&& type ≠ 0)

/-! ## Delivery client -/

/-- How a run of a function of the plugin ends: it returns, or it reads
through a null pointer, or the model ran out of fuel. -/
inductive run (α : Type) where
  | done (a : α)
  | null_deref
  | out_of_fuel
  deriving DecidableEq

/-- The target of both requests:
`xstrfmtcat(url, "%s/metrics/job/%d/instance/%s", host, jobid, node_name)`
on a null `url`.  The job id is a `uint32_t` and is converted with `%d`. -/
def format_url (host : String) (jobid : Nat) (node_name : String) : String :=
  host ++ "/metrics/job/" ++ toString (to_int jobid) ++ "/instance/" ++ node_name

/-- The response buffer `struct http_response`; bytes are numbers below 256. -/
structure http_response where
  message : List Nat
  size : Nat
  deriving DecidableEq

/-- The function `_write_callback`: returns `realsize` and the new buffer. -/
def _write_callback (contents : List Nat) (size nmemb : Nat) (mem : http_response) :
    Nat × http_response :=
  let realsize := size * nmemb
  let grown := xrealloc 0 mem.message (mem.size + realsize + 1)
  let copied := grown.take mem.size ++ xrealloc 0 contents realsize ++
    grown.drop (mem.size + realsize)
  let size1 := mem.size + realsize
  (realsize, { message := copied.set size1 0, size := size1 })

/-- The body pieces that libcurl hands to the write callback while the request
is performed, each as `size = 1`, `nmemb = ` its length. -/
def receive_body (pieces : List (List Nat)) (chunk : http_response) : http_response :=
  pieces.foldl (fun c piece => (_write_callback piece 1 piece.length c).2) chunk

/-- The C function `strlen` on a buffer: the index of the first zero byte. -/
def strlen (message : List Nat) : Nat :=
  message.findIdx fun b => b == 0

/-- The value of `a - b` in `size_t` arithmetic. -/
def size_sub (a b : Nat) : Nat :=
  (a + 2 ^ 64 - b % 2 ^ 64) % 2 ^ 64

/-- The response buffer while the newline-stripping loop runs, with the byte
stored right before `message[0]` (it belongs to the allocator, not to the
buffer) and the indices the loop has read or written so far. -/
structure chunk_memory where
  before : Nat
  message : List Nat
  touched : List Nat
  deriving DecidableEq

/-- Reading `message[i]`.  An index at or past the end of the buffer can only
be `SIZE_MAX`, that is `message[-1]`, the byte right before the buffer. -/
def read_byte (m : chunk_memory) (i : Nat) : Nat :=
  if i < m.message.length then m.message.getD i 0 else m.before

/-- Writing `message[i] = b`, recorded in `touched`. -/
def write_byte (m : chunk_memory) (i : Nat) (b : Nat) : chunk_memory :=
  if i < m.message.length then
    { m with message := m.message.set i b, touched := m.touched ++ [i] }
  else { m with before := b, touched := m.touched ++ [i] }

/-- The loop
`while (chunk.message[strlen(chunk.message) - 1] == 10) chunk.message[strlen(chunk.message) - 1] = 0;`
of `_send_data` and `_delete_data`, run for at most `fuel` tests of its
condition. -/
def strip_loop : Nat → chunk_memory → Option chunk_memory
  | 0, _ => none
  | fuel + 1, m =>
    let i := size_sub (strlen m.message) 1
    let m1 := { m with touched := m.touched ++ [i] }
    if read_byte m i = 10 then
      strip_loop fuel (write_byte m1 (size_sub (strlen m.message) 1) 0)
    else some m1

/-- The stripping loop with fuel for every byte of the buffer and for the byte
before it. -/
def strip_trailing_newlines (m : chunk_memory) : Option chunk_memory :=
  strip_loop (m.message.length + 2) m

/-- The bytes that `%s` prints for a buffer: those before the first zero. -/
def c_string (message : List Nat) : List Nat :=
  message.take (strlen message)

/-- What libcurl and the Slurm daemon do during one request: the results of
the four libcurl calls, the response body, whether
`slurm_get_debug_flags() & DEBUG_FLAG_PROFILE` is set, and the byte that the
allocator keeps right before the response buffer. -/
structure transport where
  global_init : Nat
  easy_init : Bool
  perform : Nat
  body : List (List Nat)
  getinfo : Nat
  response_code : Int
  debug_profile : Bool
  header_byte : Nat
  deriving DecidableEq

/-- What one request did: the return code, the URL and the body given to
libcurl (when the call got that far), the response text it logged, and the
buffer indices its stripping loop touched. -/
structure request_result where
  rc : Int
  url : Option String
  posted : Option String
  logged : Option (List Nat)
  touched : List Nat
  deriving DecidableEq

/-- The part of `_send_data` and `_delete_data` from `curl_easy_perform` to the
`cleanup` label. -/
def complete_request (t : transport) (url : String) (posted : Option String) :
    run request_result :=
  let chunk := receive_body t.body { message := xrealloc 0 [] 1, size := 0 }
  if t.perform ≠ 0 then
    run.done { rc := SLURM_ERROR, url := some url, posted := posted, logged := none, touched := [] }
  else if t.getinfo ≠ 0 then
    run.done { rc := SLURM_ERROR, url := some url, posted := posted, logged := none, touched := [] }
  else if t.response_code ≥ 200 ∧ t.response_code ≤ 205 then
    run.done { rc := SLURM_SUCCESS, url := some url, posted := posted, logged := none, touched := [] }
  else if t.debug_profile then
    match strip_trailing_newlines
        { before := t.header_byte, message := chunk.message, touched := [] } with
    | none => run.out_of_fuel
    | some m =>
      run.done { rc := SLURM_ERROR, url := some url, posted := posted
                 logged := some (c_string m.message), touched := m.touched }
  else
    run.done { rc := SLURM_ERROR, url := some url, posted := posted, logged := none, touched := [] }

/-- The function `_send_data`; `data = none` is a null pointer. -/
def _send_data (s : plugin_state) (t : transport) (data : Option String) :
    run request_result :=
  if t.global_init ≠ 0 then
    run.done { rc := SLURM_ERROR, url := none, posted := none, logged := none, touched := [] }
  else if t.easy_init = false then
    run.done { rc := SLURM_ERROR, url := none, posted := none, logged := none, touched := [] }
  else
    match s.g_job with
    | none => run.null_deref
    | some job =>
      let url := format_url s.prometheus_conf.host job.jobid job.node_name
      match data with
      | none => run.null_deref
      | some payload => complete_request t url (some payload)

/-- The function `_delete_data`. -/
def _delete_data (s : plugin_state) (t : transport) : run request_result :=
  if t.global_init ≠ 0 then
    run.done { rc := SLURM_ERROR, url := none, posted := none, logged := none, touched := [] }
  else if t.easy_init = false then
    run.done { rc := SLURM_ERROR, url := none, posted := none, logged := none, touched := [] }
  else
    match s.g_job with
    | none => run.null_deref
    | some job =>
      complete_request t (format_url s.prometheus_conf.host job.jobid job.node_name) none

/-- The function `acct_gather_profile_p_task_end`: the request it makes and
its return value. -/
def acct_gather_profile_p_task_end (s : plugin_state) (t : transport) (taskpid : Int) :
    run (Int × request_result) :=
  match _delete_data s t with
  | run.done r => run.done (SLURM_SUCCESS, r)
  | run.null_deref => run.null_deref
  | run.out_of_fuel => run.out_of_fuel

/-! ## Sample encoder -/

/-- Slurm's `xstrfmtcat(str, ...)` given the formatted text: a null `str`
becomes that text, any other one is extended by it. -/
def xstrfmtcat (str : Option String) (text : String) : Option String :=
  some (str.getD "" ++ text)

/-- One pass of the `for` loop of `add_sample_data`.  A sample value is the
eight bytes of `union data_t` read as an unsigned integer; `fmt_f2 v` is what
the C library prints for `%.2f` of the double stored in those bytes. -/
def encode_field (fmt_f2 : Nat → String) (table : table_t) (data : List Nat)
    (str : Option String) (i : Nat) : Option String :=
  match table.types.getD i PROFILE_FIELD_NOT_SET with
  | PROFILE_FIELD_UINT64 =>
    xstrfmtcat str (table.names.getD i "" ++ " " ++ toString (data.getD i 0 % 2 ^ 64) ++ "\n")
  | PROFILE_FIELD_DOUBLE =>
    xstrfmtcat str (table.names.getD i "" ++ " " ++ fmt_f2 (data.getD i 0) ++ "\n")
  | PROFILE_FIELD_NOT_SET => str

/-- The string `str` that `add_sample_data` has built when its loop ends;
`none` is the null pointer it starts from. -/
def encode_sample (fmt_f2 : Nat → String) (table : table_t) (data : List Nat) :
    Option String :=
  (List.range table.size).foldl (encode_field fmt_f2 table data) none

/-- The function `acct_gather_profile_p_add_sample_data`: its return value and
what the `_send_data` call it makes did. -/
def acct_gather_profile_p_add_sample_data (fmt_f2 : Nat → String) (s : plugin_state)
    (t : transport) (table_id : Int) (data : List Nat) (sample_time : Int) :
    run (Int × request_result) :=
  let table := s.tables.getD table_id.toNat zero_table
  match _send_data s t (encode_sample fmt_f2 table data) with
  | run.done r => run.done (SLURM_SUCCESS, r)
  | run.null_deref => run.null_deref
  | run.out_of_fuel => run.out_of_fuel

/-- The payload the claim describes for a schema and a value array: one line
`name value` per field, in schema order. -/
def expected_payload (fmt_f2 : Nat → String) :
    List (String × acct_gather_profile_field_type_t) → List Nat → String
  | [], _ => ""
  | (name, ty) :: fields, data =>
    name ++ " " ++
      (if ty = PROFILE_FIELD_DOUBLE then fmt_f2 (data.headD 0)
       else toString (data.headD 0 % 2 ^ 64)) ++ "\n" ++
      expected_payload fmt_f2 fields data.tail

/-- The function `fini`: its return value and the `xfree` calls on field names
that its `_free_tables()` call makes. -/
def fini (s : plugin_state) : Int × List (Nat × Nat) :=
  (SLURM_SUCCESS, _free_tables s)

/-! ## Reference values used by the statements -/

/-- The table that a `create_dataset` call asks for: its name, and the names
and types of the entries before the first sentinel, in order. -/
def table_of (c : create_call) : table_t :=
  { names := (requested_fields c.dataset).map fun f => f.name
    types := (requested_fields c.dataset).map fun f => f.type
    size := (requested_fields c.dataset).length
    name := some c.name }

/-- The registry holds exactly the tables of the calls `cs`, in call order,
followed by zero-filled slots up to its capacity. -/
def stored_ok (s : plugin_state) (cs : List create_call) : Prop :=
  s.tables = cs.map table_of ++ List.replicate (s.tables_max_len - cs.length) zero_table ∧
  s.tables_cur_len = cs.length ∧ cs.length ≤ s.tables_max_len

/-- The quantity that every pass of the stripping loop decreases. -/
def strip_measure (m : chunk_memory) : Nat :=
  strlen m.message + if read_byte m (2 ^ 64 - 1) = 10 then 1 else 0

/-- A text without its trailing newline bytes. -/
def trim_newlines (text : List Nat) : List Nat :=
  text.rdropWhile fun b => b == 10

/-- The line that the encoder emits for one field and the value at its
position. -/
def field_line (fmt_f2 : Nat → String) (name : String)
    (ty : acct_gather_profile_field_type_t) (v : Nat) : String :=
  name ++ " " ++ (if ty = PROFILE_FIELD_DOUBLE then fmt_f2 v else toString (v % 2 ^ 64)) ++ "\n"

/-- A configuration with the collector of the examples and the default
profile "all". -/
def example_conf : slurm_prometheus_conf_t :=
  { host := "http://collector:9091", def_ := ACCT_GATHER_PROFILE_ALL }

/-- The plugin state right after `node_step_start` for a job with the given id
on node `node07` that requested no profile: the registry is empty and the
running profile is the configured default, "all". -/
def started_step (jobid : Nat) : plugin_state :=
  (acct_gather_profile_p_node_step_start (initial_state example_conf)
    { profile := ACCT_GATHER_PROFILE_NOT_SET, jobid := jobid, node_name := "node07" }).2

/-- A transport on which every libcurl call succeeds and the collector answers
with the given status and body, with verbose diagnostics enabled. -/
def answering (response_code : Int) (body : List (List Nat)) (header_byte : Nat) : transport :=
  { global_init := 0, easy_init := true, perform := 0, body := body, getinfo := 0
    response_code := response_code, debug_profile := true, header_byte := header_byte }

/-! ## Theorems -/

/-- Growing an array that ends in zero-filled slots only adds zero-filled slots. -/
theorem xrealloc_extend {α : Type} (z : α) (l : List α) (k m : Nat) (h : l.length + k ≤ m) :
    xrealloc z (l ++ List.replicate k z) m = l ++ List.replicate (m - l.length) z := by
  unfold xrealloc
  rw [List.take_of_length_le (by simp; omega)]
  rw [List.append_assoc, List.append_replicate_replicate]
  congr 2
  simp
  omega

/-- Writing the first zero-filled slot after `l`. -/
theorem set_extend {α : Type} (z x : α) (l : List α) (k : Nat) :
    (l ++ List.replicate (k + 1) z).set l.length x = l ++ x :: List.replicate k z := by
  rw [List.set_append_right _ _ (le_refl _)]
  simp [List.replicate_succ]

/-- Reading the first zero-filled slot after `l`. -/
theorem getD_extend {α : Type} (z d : α) (l : List α) (k : Nat) :
    (l ++ List.replicate (k + 1) z).getD l.length d = z := by
  rw [List.getD_eq_getElem?_getD, List.getElem?_append_right (le_refl _)]
  simp [List.replicate_succ]

/-- Growing an array by one element and storing into the new element appends. -/
theorem grow_append {α : Type} (z x : α) (l : List α) :
    (xrealloc z l (l.length + 1)).set l.length x = l ++ [x] := by
  have h := xrealloc_extend z l 0 (l.length + 1) (by omega)
  simp only [List.replicate_zero, List.append_nil] at h
  rw [h]
  have h2 : l.length + 1 - l.length = 0 + 1 := by omega
  rw [h2, set_extend]
  simp

/-- The copy loop appends the requested fields to a consistent table. -/
theorem copy_fields_eq (l : List acct_gather_profile_dataset_t) :
    ∀ table : table_t, table.names.length = table.size → table.types.length = table.size →
      copy_fields table l =
        { table with
          names := table.names ++ (requested_fields (some l)).map fun f => f.name
          types := table.types ++ (requested_fields (some l)).map fun f => f.type
          size := table.size + (requested_fields (some l)).length } := by
  induction l with
  | nil => intro table _ _; simp [copy_fields, requested_fields]
  | cons f rest ih =>
    intro table hn ht
    by_cases hf : f.type = PROFILE_FIELD_NOT_SET
    · simp [copy_fields, requested_fields, hf]
    · have hnames : (xrealloc "" table.names (table.size + 1)).set table.size f.name
          = table.names ++ [f.name] := by
        rw [← hn]; exact grow_append _ _ _
      have htypes : store_type (xrealloc PROFILE_FIELD_NOT_SET table.types (table.size + 1))
          table.size f.type = table.types ++ [f.type] := by
        have h1 : ∀ t, (xrealloc PROFILE_FIELD_NOT_SET table.types (table.size + 1)).set
            table.size t = table.types ++ [t] := by
          intro t; rw [← ht]; exact grow_append _ _ _
        cases hty : f.type with
        | PROFILE_FIELD_NOT_SET => exact absurd hty hf
        | PROFILE_FIELD_UINT64 => simp only [store_type]; exact h1 _
        | PROFILE_FIELD_DOUBLE => simp only [store_type]; exact h1 _
      simp only [copy_fields, hf, if_false]
      rw [hnames, htypes, ih _ (by simp [hn]) (by simp [ht])]
      simp [requested_fields, hf, Nat.add_assoc, Nat.add_comm]


/-- On a zero-filled slot the copy loop builds exactly the requested table. -/
theorem copy_fields_zero (c : create_call) :
    copy_fields { zero_table with name := some c.name, size := 0 } (c.dataset.getD []) =
      table_of c := by
  rw [copy_fields_eq _ _ (by simp [zero_table]) (by simp [zero_table])]
  cases hd : c.dataset <;> simp [table_of, zero_table, requested_fields, hd]

/-- With profiling inactive `create_dataset` is the identity on the state. -/
theorem create_inactive (s : plugin_state) (name : String) (parent : Int)
    (dataset : Option (List acct_gather_profile_dataset_t))
    (h : s.g_profile_running ≤ ACCT_GATHER_PROFILE_NONE) :
    acct_gather_profile_p_create_dataset s name parent dataset = (SLURM_ERROR, s) := by
  simp [acct_gather_profile_p_create_dataset, h]

/-- The result, the count and the profile after a call made with profiling active. -/
theorem create_ret (s : plugin_state) (c : create_call)
    (hp : ACCT_GATHER_PROFILE_NONE < s.g_profile_running) :
    (acct_gather_profile_p_create_dataset s c.name c.parent c.dataset).1 =
        to_int s.tables_cur_len ∧
    (acct_gather_profile_p_create_dataset s c.name c.parent c.dataset).2.tables_cur_len =
        s.tables_cur_len + 1 ∧
    (acct_gather_profile_p_create_dataset s c.name c.parent c.dataset).2.g_profile_running =
        s.g_profile_running := by
  have hp2 : ¬ s.g_profile_running ≤ ACCT_GATHER_PROFILE_NONE := by omega
  simp [acct_gather_profile_p_create_dataset, hp2]

/-- A call made with profiling active appends its table and keeps the others. -/
theorem create_stored (s : plugin_state) (cs : List create_call) (c : create_call)
    (hp : ACCT_GATHER_PROFILE_NONE < s.g_profile_running) (h : stored_ok s cs) :
    stored_ok (acct_gather_profile_p_create_dataset s c.name c.parent c.dataset).2
      (cs ++ [c]) := by
  obtain ⟨htab, hcur, hle⟩ := h
  have hp2 : ¬ s.g_profile_running ≤ ACCT_GATHER_PROFILE_NONE := by omega
  -- the backing store after the optional doubling
  have key : ∀ (tables : List table_t) (max_len : Nat), cs.length < max_len →
      tables = cs.map table_of ++ List.replicate (max_len - cs.length) zero_table →
      (tables.set s.tables_cur_len
          (copy_fields { tables.getD s.tables_cur_len zero_table with
              name := some c.name, size := 0 } (c.dataset.getD []))) =
        (cs ++ [c]).map table_of ++
          List.replicate (max_len - (cs ++ [c]).length) zero_table := by
    intro tables max_len hlt ht
    obtain ⟨k, hk⟩ : ∃ k, max_len - cs.length = k + 1 := ⟨max_len - cs.length - 1, by omega⟩
    have hlen : (cs.map table_of).length = s.tables_cur_len := by simp [hcur]
    rw [ht, hk, ← hlen, getD_extend, set_extend]
    rw [copy_fields_zero]
    have hk2 : max_len - (cs ++ [c]).length = k := by simp; omega
    rw [hk2]
    simp
  unfold stored_ok
  by_cases hg : s.tables_cur_len = s.tables_max_len
  · obtain ⟨M, hM, hMlt⟩ : ∃ M, (if s.tables_max_len = 0 then s.tables_max_len + 1
        else s.tables_max_len) * 2 = M ∧ s.tables_max_len < M := ⟨_, rfl, by split <;> omega⟩
    have hx : xrealloc zero_table s.tables M =
        cs.map table_of ++ List.replicate (M - cs.length) zero_table := by
      rw [htab]
      have := xrealloc_extend zero_table (cs.map table_of) (s.tables_max_len - cs.length) M
        (by simp; omega)
      simpa using this
    simp only [acct_gather_profile_p_create_dataset, hp2, if_false, hg, decide_True, if_true]
    rw [hM]
    refine ⟨?_, by simp [← hg, hcur], by simp; omega⟩
    have := key _ _ (by omega) hx
    rw [hg] at this
    exact this
  · have hlt : cs.length < s.tables_max_len := by omega
    simp only [acct_gather_profile_p_create_dataset, hp2, if_false, hg, decide_False]
    refine ⟨?_, by simp [hcur], by simp; omega⟩
    exact key _ _ hlt htab

/-- Running a sequence extended by one call. -/
theorem run_creates_append (calls : List create_call) :
    ∀ (s : plugin_state) (c : create_call),
      run_creates s (calls ++ [c]) =
        ((run_creates s calls).1 ++
          [(acct_gather_profile_p_create_dataset (run_creates s calls).2
              c.name c.parent c.dataset).1],
         (acct_gather_profile_p_create_dataset (run_creates s calls).2
              c.name c.parent c.dataset).2) := by
  induction calls with
  | nil => intro s c; simp [run_creates]
  | cons d rest ih => intro s c; simp [run_creates, ih]

/-- The registry after a sequence of calls made with profiling active. -/
theorem run_creates_state (calls : List create_call) :
    ∀ (s : plugin_state) (cs : List create_call),
      ACCT_GATHER_PROFILE_NONE < s.g_profile_running → stored_ok s cs →
      stored_ok (run_creates s calls).2 (cs ++ calls) ∧
      (run_creates s calls).2.g_profile_running = s.g_profile_running := by
  induction calls with
  | nil => intro s cs _ h; simpa [run_creates] using h
  | cons c rest ih =>
    intro s cs hp h
    have h1 := create_stored s cs c hp h
    have h2 := (create_ret s c hp).2.2
    have h3 := ih _ (cs ++ [c]) (by rw [h2]; exact hp) h1
    simp only [run_creates]
    refine ⟨by simpa using h3.1, by rw [h3.2, h2]⟩

/-- The values returned by a sequence of calls made with profiling active: the
table counts before each call, narrowed to `int`. -/
theorem run_creates_rets (calls : List create_call) :
    ∀ s : plugin_state, ACCT_GATHER_PROFILE_NONE < s.g_profile_running →
      (run_creates s calls).1 =
        (List.range' s.tables_cur_len calls.length).map to_int := by
  induction calls with
  | nil => intro s _; simp [run_creates]
  | cons c rest ih =>
    intro s hp
    obtain ⟨h1, h2, h3⟩ := create_ret s c hp
    simp only [run_creates, List.length_cons, List.range'_succ, List.map_cons]
    rw [h1, ih _ (by rw [h3]; exact hp), h2]


/-- The table count after a sequence of calls made with profiling active. -/
theorem run_creates_cur_len (calls : List create_call) :
    ∀ s : plugin_state, ACCT_GATHER_PROFILE_NONE < s.g_profile_running →
      (run_creates s calls).2.tables_cur_len = s.tables_cur_len + calls.length := by
  induction calls with
  | nil => intro s _; simp [run_creates]
  | cons c rest ih =>
    intro s hp
    obtain ⟨_, h2, h3⟩ := create_ret s c hp
    simp only [run_creates, List.length_cons]
    rw [ih _ (by rw [h3]; exact hp), h2]
    omega

/-- Values below `2 ^ 31` survive the conversion to `int`. -/
theorem to_int_small (k : Nat) (h : k < 2 ^ 31) : to_int k = (k : Int) := by
  have h1 : k % 2 ^ 32 = k := Nat.mod_eq_of_lt (by omega)
  unfold to_int
  rw [h1, if_pos h]

/-- Claim C1, amended: starting from an empty registry, for every sequence of at
most `2 ^ 31` `create_dataset` calls made while the running profile is above
`NONE`, the k-th call returns exactly `k`: the handle is non-negative, equals
the number of tables stored before the call, and is strictly greater than
every handle returned earlier, whatever name, parent and field definitions are
passed. -/
theorem create_dataset_handles (s : plugin_state) (calls : List create_call)
    (h0 : s.tables = []) (h1 : s.tables_max_len = 0) (h2 : s.tables_cur_len = 0)
    (hp : ACCT_GATHER_PROFILE_NONE < s.g_profile_running)
    (hlen : calls.length ≤ 2 ^ 31) :
    (run_creates s calls).1 = (List.range calls.length).map Int.ofNat ∧
    ∀ k, k < calls.length →
      (run_creates s calls).1[k]? = some (k : Int) ∧
      (run_creates s (calls.take k)).2.tables_cur_len = k ∧
      (0 : Int) ≤ (k : Int) ∧
      ∀ j, j < k → ∃ a : Int, (run_creates s calls).1[j]? = some a ∧ a < (k : Int) := by
  have hr : (run_creates s calls).1 = (List.range calls.length).map Int.ofNat := by
    rw [run_creates_rets calls s hp, h2, ← List.range_eq_range']
    apply List.map_congr_left
    intro k hk
    exact to_int_small k (by have := List.mem_range.mp hk; omega)
  refine ⟨hr, ?_⟩
  intro k hk
  refine ⟨by rw [hr]; simp [hk], ?_, by omega, ?_⟩
  · rw [run_creates_cur_len _ s hp, h2]
    simp
    omega
  · intro j hj
    exact ⟨(j : Int), by rw [hr]; simp [show j < calls.length by omega], by exact_mod_cast hj⟩

/-- Claim C1, witness: three calls with different names, parents and field
definitions on a started step return 0, 1 and 2. -/
theorem create_dataset_handles_witness :
    (started_step 123).tables = [] ∧ (started_step 123).tables_max_len = 0 ∧
    (started_step 123).tables_cur_len = 0 ∧
    ACCT_GATHER_PROFILE_NONE < (started_step 123).g_profile_running ∧
    [(⟨"task", 0, some [⟨"cpu_pct", PROFILE_FIELD_DOUBLE⟩]⟩ : create_call),
      ⟨"energy", 7, none⟩, ⟨"task", -1, some []⟩].length ≤ 2 ^ 31 ∧
    (run_creates (started_step 123)
        [⟨"task", 0, some [⟨"cpu_pct", PROFILE_FIELD_DOUBLE⟩]⟩, ⟨"energy", 7, none⟩,
         ⟨"task", -1, some []⟩]).1 = [0, 1, 2] :=
  ⟨by decide, by decide, by decide, by decide, by decide,
   (create_dataset_handles (started_step 123)
    [⟨"task", 0, some [⟨"cpu_pct", PROFILE_FIELD_DOUBLE⟩]⟩, ⟨"energy", 7, none⟩,
     ⟨"task", -1, some []⟩] (by decide) (by decide) (by decide) (by decide) (by decide)).1⟩

/-- Claim C1, counterexample: on a started step with an empty registry, the call
made after `2 ^ 31` earlier calls (k = `2 ^ 31`) does not return k: the table
index `2 ^ 31` does not fit the `int` result and comes back as `-2147483648`. -/
theorem create_dataset_handle_wraps :
    (started_step 123).tables = [] ∧ (started_step 123).tables_max_len = 0 ∧
    (started_step 123).tables_cur_len = 0 ∧
    ACCT_GATHER_PROFILE_NONE < (started_step 123).g_profile_running ∧
    (run_creates (started_step 123)
      (List.replicate (2 ^ 31 + 1) ⟨"task", 0, none⟩)).1[2 ^ 31]? = some (-2147483648) := by
  refine ⟨by decide, by decide, by decide, by decide, ?_⟩
  rw [run_creates_rets _ _ (by decide), List.length_replicate, List.getElem?_map,
    List.getElem?_range' _ _ (by omega)]
  decide

/-- Claim C2: for every registry state and every name, parent and
field-definition argument, `create_dataset` called while the running profile
is `<= NONE` (that is `NOT_SET` or `NONE`) returns `SLURM_ERROR` and leaves
the state unchanged: the table count, the capacity and every stored table are
the same after the call as before it. -/
theorem create_dataset_inactive (s : plugin_state) (name : String) (parent : Int)
    (dataset : Option (List acct_gather_profile_dataset_t))
    (h : s.g_profile_running ≤ ACCT_GATHER_PROFILE_NONE) :
    (s.g_profile_running = ACCT_GATHER_PROFILE_NOT_SET ∨
      s.g_profile_running = ACCT_GATHER_PROFILE_NONE) ∧
    (acct_gather_profile_p_create_dataset s name parent dataset).1 = SLURM_ERROR ∧
    (acct_gather_profile_p_create_dataset s name parent dataset).2 = s ∧
    (acct_gather_profile_p_create_dataset s name parent dataset).2.tables_cur_len =
      s.tables_cur_len ∧
    (acct_gather_profile_p_create_dataset s name parent dataset).2.tables_max_len =
      s.tables_max_len ∧
    (acct_gather_profile_p_create_dataset s name parent dataset).2.tables = s.tables := by
  rw [create_inactive s name parent dataset h]
  refine ⟨?_, rfl, rfl, rfl, rfl, rfl⟩
  unfold ACCT_GATHER_PROFILE_NONE at h
  unfold ACCT_GATHER_PROFILE_NOT_SET ACCT_GATHER_PROFILE_NONE
  omega

/-- Claim C2, witness: a call made before any step has started (the running
profile is `NOT_SET`). -/
theorem create_dataset_inactive_witness :
    (initial_state example_conf).g_profile_running ≤ ACCT_GATHER_PROFILE_NONE ∧
    (acct_gather_profile_p_create_dataset (initial_state example_conf) "task" 0
        (some [⟨"cpu_pct", PROFILE_FIELD_DOUBLE⟩])).1 = SLURM_ERROR ∧
    (acct_gather_profile_p_create_dataset (initial_state example_conf) "task" 0
        (some [⟨"cpu_pct", PROFILE_FIELD_DOUBLE⟩])).2 = initial_state example_conf :=
  ⟨by decide,
   (create_dataset_inactive (initial_state example_conf) "task" 0
      (some [⟨"cpu_pct", PROFILE_FIELD_DOUBLE⟩]) (by decide)).2.1,
   (create_dataset_inactive (initial_state example_conf) "task" 0
      (some [⟨"cpu_pct", PROFILE_FIELD_DOUBLE⟩]) (by decide)).2.2.1⟩

/-- Claim C8: for every sequence of `create_dataset` calls made with profiling
active on an initially empty registry, the table stored at handle `i`
afterwards has exactly the name, the field names and the field types, in the
same order and up to the first `NOT_SET` sentinel, that the i-th call was
given; the table count is the number of calls and never exceeds the capacity,
which is the length of the backing store; and a later call, with or without a
doubling of the backing store, changes no previously stored table. -/
theorem registry_readback (s : plugin_state) (calls : List create_call)
    (h0 : s.tables = []) (h1 : s.tables_max_len = 0) (h2 : s.tables_cur_len = 0)
    (hp : ACCT_GATHER_PROFILE_NONE < s.g_profile_running) :
    (∀ (i : Nat) (c : create_call), calls[i]? = some c →
      (run_creates s calls).2.tables[i]? = some (table_of c)) ∧
    (run_creates s calls).2.tables_cur_len = calls.length ∧
    (run_creates s calls).2.tables_cur_len ≤ (run_creates s calls).2.tables_max_len ∧
    (run_creates s calls).2.tables.length = (run_creates s calls).2.tables_max_len ∧
    (∀ (later : create_call) (i : Nat), i < calls.length →
      (acct_gather_profile_p_create_dataset (run_creates s calls).2
          later.name later.parent later.dataset).2.tables[i]? =
        (run_creates s calls).2.tables[i]?) := by
  have hs : stored_ok s [] := by simp [stored_ok, h0, h1, h2]
  obtain ⟨⟨htab, hcur, hle⟩, hprof⟩ := run_creates_state calls s [] hp hs
  simp only [List.nil_append] at htab hcur hle
  have hread : ∀ (s1 : plugin_state) (cs : List create_call), stored_ok s1 cs →
      ∀ (i : Nat) (c : create_call), cs[i]? = some c →
        s1.tables[i]? = some (table_of c) := by
    intro s1 cs h i c hc
    have hi : i < cs.length := by
      rcases Nat.lt_or_ge i cs.length with hlt | hge
      · exact hlt
      · rw [List.getElem?_eq_none hge] at hc; cases hc
    rw [h.1, List.getElem?_append_left (by simpa using hi), List.getElem?_map, hc]
    rfl
  refine ⟨hread _ _ ⟨htab, hcur, hle⟩, hcur, by omega, ?_, ?_⟩
  · rw [htab]; simp; omega
  · intro later i hi
    have hnext := create_stored _ calls later (by rw [hprof]; exact hp) ⟨htab, hcur, hle⟩
    obtain ⟨c, hc⟩ : ∃ c, calls[i]? = some c := ⟨calls[i], List.getElem?_eq_getElem hi⟩
    rw [hread _ _ hnext i c (by rw [List.getElem?_append_left hi]; exact hc),
      hread _ _ ⟨htab, hcur, hle⟩ i c hc]

/-- Claim C8, witness: three tables, the third one created after the backing
store of two slots has been doubled. -/
theorem registry_readback_witness :
    (started_step 123).tables = [] ∧ (started_step 123).tables_max_len = 0 ∧
    (started_step 123).tables_cur_len = 0 ∧
    ACCT_GATHER_PROFILE_NONE < (started_step 123).g_profile_running ∧
    (run_creates (started_step 123)
        [⟨"task", 0, some [⟨"cpu_pct", PROFILE_FIELD_DOUBLE⟩,
            ⟨"rss_bytes", PROFILE_FIELD_UINT64⟩, ⟨"", PROFILE_FIELD_NOT_SET⟩,
            ⟨"ignored", PROFILE_FIELD_UINT64⟩]⟩,
         ⟨"energy", 0, some [⟨"watts", PROFILE_FIELD_UINT64⟩]⟩,
         ⟨"network", 0, none⟩]).2.tables[0]? =
      some { names := ["cpu_pct", "rss_bytes"]
             types := [PROFILE_FIELD_DOUBLE, PROFILE_FIELD_UINT64]
             size := 2, name := some "task" } ∧
    (run_creates (started_step 123)
        [⟨"task", 0, some [⟨"cpu_pct", PROFILE_FIELD_DOUBLE⟩,
            ⟨"rss_bytes", PROFILE_FIELD_UINT64⟩, ⟨"", PROFILE_FIELD_NOT_SET⟩,
            ⟨"ignored", PROFILE_FIELD_UINT64⟩]⟩,
         ⟨"energy", 0, some [⟨"watts", PROFILE_FIELD_UINT64⟩]⟩,
         ⟨"network", 0, none⟩]).2.tables_cur_len = 3 :=
  ⟨by decide, by decide, by decide, by decide,
   (registry_readback (started_step 123)
        [⟨"task", 0, some [⟨"cpu_pct", PROFILE_FIELD_DOUBLE⟩,
            ⟨"rss_bytes", PROFILE_FIELD_UINT64⟩, ⟨"", PROFILE_FIELD_NOT_SET⟩,
            ⟨"ignored", PROFILE_FIELD_UINT64⟩]⟩,
         ⟨"energy", 0, some [⟨"watts", PROFILE_FIELD_UINT64⟩]⟩,
         ⟨"network", 0, none⟩] (by decide) (by decide) (by decide) (by decide)).1 0 _ rfl,
   (registry_readback (started_step 123)
        [⟨"task", 0, some [⟨"cpu_pct", PROFILE_FIELD_DOUBLE⟩,
            ⟨"rss_bytes", PROFILE_FIELD_UINT64⟩, ⟨"", PROFILE_FIELD_NOT_SET⟩,
            ⟨"ignored", PROFILE_FIELD_UINT64⟩]⟩,
         ⟨"energy", 0, some [⟨"watts", PROFILE_FIELD_UINT64⟩]⟩,
         ⟨"network", 0, none⟩] (by decide) (by decide) (by decide) (by decide)).2.1⟩

/-- Claim C6: for every current running profile `r`, job-requested profile `j`
and configured default `d`, the profile that `node_step_start` latches is `r`
when `r` is not `NOT_SET`, otherwise `j` when `j` is not `NOT_SET`, otherwise
`d`.  In particular `r = NOT_SET`, `j = NONE`, `d = ALL` gives `NONE`, and any
`r` other than `NOT_SET` stays unchanged whatever the job and the default are,
so a second resolution never changes an already-resolved profile. -/
theorem node_step_start_profile (s : plugin_state) (job : stepd_step_rec_t) :
    (acct_gather_profile_p_node_step_start s job).2.g_profile_running =
      (if s.g_profile_running ≠ ACCT_GATHER_PROFILE_NOT_SET then s.g_profile_running
       else if job.profile ≠ ACCT_GATHER_PROFILE_NOT_SET then job.profile
       else s.prometheus_conf.def_) ∧
    _determine_profile ACCT_GATHER_PROFILE_NOT_SET ACCT_GATHER_PROFILE_NONE
      ACCT_GATHER_PROFILE_ALL = ACCT_GATHER_PROFILE_NONE ∧
    (∀ job2 : stepd_step_rec_t, s.g_profile_running ≠ ACCT_GATHER_PROFILE_NOT_SET →
      (acct_gather_profile_p_node_step_start s job2).2.g_profile_running =
        s.g_profile_running) := by
  have hge : ∀ j : Nat, j ≥ ACCT_GATHER_PROFILE_NONE ↔ j ≠ ACCT_GATHER_PROFILE_NOT_SET := by
    intro j; unfold ACCT_GATHER_PROFILE_NONE ACCT_GATHER_PROFILE_NOT_SET; omega
  refine ⟨?_, by decide, ?_⟩
  · simp only [acct_gather_profile_p_node_step_start, _determine_profile, hge]
  · intro job2 hr
    simp [acct_gather_profile_p_node_step_start, _determine_profile, hr]

/-- Claim C6, witness: a second step of the worker asks for another profile and
the latched one stays. -/
theorem node_step_start_profile_witness :
    (started_step 123).g_profile_running ≠ ACCT_GATHER_PROFILE_NOT_SET ∧
    (acct_gather_profile_p_node_step_start (started_step 123)
        { profile := 4, jobid := 124, node_name := "node07" }).2.g_profile_running =
      (started_step 123).g_profile_running :=
  ⟨by decide,
   (node_step_start_profile (started_step 123)
      { profile := 4, jobid := 124, node_name := "node07" }).2.2
    { profile := 4, jobid := 124, node_name := "node07" } (by decide)⟩

/-- Claim C7: for every running profile `p` and every queried category `t`,
`is_active t` is false whenever `p <= NONE`, also for the wildcard
`t = NOT_SET`; when `p > NONE`, `is_active t` is true if and only if `t` is the
wildcard `NOT_SET` or the bitwise AND of `p` and `t` is non-zero; hence with
`p = ALL` every non-zero 32-bit category is active. -/
theorem is_active_spec (s : plugin_state) (type : Nat) :
    (s.g_profile_running ≤ ACCT_GATHER_PROFILE_NONE →
      acct_gather_profile_p_is_active s type = false ∧
      acct_gather_profile_p_is_active s ACCT_GATHER_PROFILE_NOT_SET = false) ∧
    (ACCT_GATHER_PROFILE_NONE < s.g_profile_running →
      (acct_gather_profile_p_is_active s type = true ↔
        type = ACCT_GATHER_PROFILE_NOT_SET ∨ s.g_profile_running &&& type ≠ 0)) ∧
    (s.g_profile_running = ACCT_GATHER_PROFILE_ALL → type < 2 ^ 32 → type ≠ 0 →
      acct_gather_profile_p_is_active s type = true) := by
  refine ⟨?_, ?_, ?_⟩
  · intro h
    simp [acct_gather_profile_p_is_active, h]
  · intro h
    have h2 : ¬ s.g_profile_running ≤ ACCT_GATHER_PROFILE_NONE := by omega
    simp [acct_gather_profile_p_is_active, h2]
  · intro hall hlt hne
    have hand : ACCT_GATHER_PROFILE_ALL &&& type = type := by
      have h := Nat.and_pow_two_sub_one_eq_mod type 32
      rw [Nat.land_comm] at h
      have h3 : (2 : Nat) ^ 32 - 1 = ACCT_GATHER_PROFILE_ALL := by decide
      rw [h3] at h
      rw [h, Nat.mod_eq_of_lt hlt]
    unfold acct_gather_profile_p_is_active
    rw [hall, if_neg (by decide), hand]
    simp [hne]

/-- Claim C7, witness: before any step nothing is active, and on a started step
with profile "all" the category 4 is active. -/
theorem is_active_spec_witness :
    (initial_state example_conf).g_profile_running ≤ ACCT_GATHER_PROFILE_NONE ∧
    acct_gather_profile_p_is_active (initial_state example_conf) 4 = false ∧
    (started_step 123).g_profile_running = ACCT_GATHER_PROFILE_ALL ∧
    4 < 2 ^ 32 ∧ 4 ≠ 0 ∧
    acct_gather_profile_p_is_active (started_step 123) 4 = true :=
  ⟨by decide, ((is_active_spec (initial_state example_conf) 4).1 (by decide)).1,
   by decide, by decide, by decide,
   (is_active_spec (started_step 123) 4).2.2 (by decide) (by decide) (by decide)⟩

/-- The first zero byte, if any, lies within the buffer. -/
theorem strlen_le (l : List Nat) : strlen l ≤ l.length := by
  unfold strlen
  exact List.findIdx_le_length _

/-- Unfolding `strlen` by one byte. -/
theorem strlen_cons (x : Nat) (xs : List Nat) :
    strlen (x :: xs) = if x = 0 then 0 else strlen xs + 1 := by
  unfold strlen
  rw [List.findIdx_cons]
  by_cases h : x = 0
  · simp [h]
  · have hb : (x == 0) = false := by simpa using h
    rw [hb, if_neg h]
    rfl

/-- Zeroing a byte of the string cuts the string there. -/
theorem strlen_set_lt (l : List Nat) : ∀ i : Nat, i < strlen l → strlen (l.set i 0) = i := by
  induction l with
  | nil => intro i h; simp [strlen] at h
  | cons x xs ih =>
    intro i h
    rw [strlen_cons] at h
    by_cases hx : x = 0
    · simp [hx] at h
    · rw [if_neg hx] at h
      cases i with
      | zero => simp [List.set, strlen_cons]
      | succ j =>
        simp only [List.set, strlen_cons, if_neg hx]
        rw [ih j (by omega)]

/-- Zeroing any byte keeps an empty string empty. -/
theorem strlen_set_zero (l : List Nat) (i : Nat) (h : strlen l = 0) :
    strlen (l.set i 0) = 0 := by
  cases l with
  | nil => simp [strlen]
  | cons x xs =>
    rw [strlen_cons] at h
    by_cases hx : x = 0
    · cases i with
      | zero => simp [List.set, strlen_cons]
      | succ j => simp [List.set, strlen_cons, hx]
    · rw [if_neg hx] at h; omega

/-- Subtracting one from a positive `size_t` gives a smaller value. -/
theorem size_sub_pos (a : Nat) (h : 0 < a) : size_sub a 1 < a := by
  unfold size_sub
  omega

/-- In `size_t` arithmetic `0 - 1` is `SIZE_MAX`. -/
theorem size_sub_zero : size_sub 0 1 = 2 ^ 64 - 1 := by decide

/-- Every pass of the stripping loop that writes decreases `strip_measure`. -/
theorem strip_step_decreases (m : chunk_memory) (l : List Nat)
    (h : read_byte m (size_sub (strlen m.message) 1) = 10) :
    strip_measure (write_byte { m with touched := l } (size_sub (strlen m.message) 1) 0)
      < strip_measure m := by
  rcases Nat.eq_zero_or_pos (strlen m.message) with h0 | hpos
  · rw [h0, size_sub_zero] at h ⊢
    unfold strip_measure
    rw [h, if_pos rfl, h0]
    unfold write_byte
    by_cases hin : 2 ^ 64 - 1 < m.message.length
    · have hin2 : 2 ^ 64 - 1 < (m.message.set (2 ^ 64 - 1) 0).length := by simpa using hin
      simp only [if_pos hin, read_byte, if_pos hin2, strlen_set_zero _ _ h0]
      rw [List.getD_eq_getElem?_getD, List.getElem?_set, if_pos rfl, if_pos hin]
      simp
    · simp only [if_neg hin, read_byte, h0]
      simp
  · have hlt := size_sub_pos _ hpos
    have hlen := strlen_le m.message
    have hin : size_sub (strlen m.message) 1 < m.message.length := by omega
    unfold strip_measure write_byte
    simp only [if_pos hin, strlen_set_lt _ _ hlt]
    have hflag : (if read_byte ⟨m.before, m.message.set (size_sub (strlen m.message) 1) 0,
            l ++ [size_sub (strlen m.message) 1]⟩ (2 ^ 64 - 1) = 10
          then 1 else 0) ≤ (if read_byte m (2 ^ 64 - 1) = 10 then 1 else 0) := by
      unfold read_byte
      simp only [List.length_set]
      by_cases hb : 2 ^ 64 - 1 < m.message.length
      · simp only [if_pos hb, List.getD_eq_getElem?_getD, List.getElem?_set]
        by_cases he : size_sub (strlen m.message) 1 = 2 ^ 64 - 1
        · rw [if_pos he, if_pos hin]
          simp
        · rw [if_neg he]
      · simp only [if_neg hb]
        exact le_refl _
    omega

/-- With more fuel than `strip_measure` the stripping loop returns. -/
theorem strip_loop_terminates : ∀ (fuel : Nat) (m : chunk_memory),
    strip_measure m < fuel → ∃ m1, strip_loop fuel m = some m1 := by
  intro fuel
  induction fuel with
  | zero => intro m h; omega
  | succ n ih =>
    intro m h
    by_cases hb : read_byte m (size_sub (strlen m.message) 1) = 10
    · simp only [strip_loop, if_pos hb]
      apply ih
      have := strip_step_decreases m (m.touched ++ [size_sub (strlen m.message) 1]) hb
      omega
    · simp only [strip_loop, if_neg hb]
      exact ⟨_, rfl⟩

/-- The stripping loop returns on every buffer, whatever byte precedes it. -/
theorem strip_trailing_newlines_terminates (m : chunk_memory) :
    ∃ m1, strip_trailing_newlines m = some m1 := by
  apply strip_loop_terminates
  have := strlen_le m.message
  unfold strip_measure
  split <;> omega


/-- Subtracting one from a positive `size_t` below `2 ^ 64`. -/
theorem size_sub_one (a : Nat) (h : 0 < a) (hlt : a < 2 ^ 64) : size_sub a 1 = a - 1 := by
  unfold size_sub
  omega

/-- A non-empty string is its first bytes followed by its last byte. -/
theorem c_string_last (message : List Nat) (h : 0 < strlen message) :
    c_string message =
      message.take (strlen message - 1) ++ [message.getD (strlen message - 1) 0] := by
  have hle := strlen_le message
  have hlt : strlen message - 1 < message.length := by omega
  unfold c_string
  have h1 : strlen message = (strlen message - 1) + 1 := by omega
  conv_lhs => rw [h1, List.take_succ]
  rw [List.getElem?_eq_getElem hlt, List.getD_eq_getElem?_getD, List.getElem?_eq_getElem hlt]
  rfl

/-- Zeroing the last byte of a non-empty string removes that byte. -/
theorem c_string_set (message : List Nat) (h : 0 < strlen message) :
    c_string (message.set (strlen message - 1) 0) = message.take (strlen message - 1) := by
  unfold c_string
  rw [strlen_set_lt _ _ (by omega), List.set_take,
    List.set_eq_of_length_le (by rw [List.length_take]; omega)]

/-- When the stripping loop returns, the string left in the buffer is the
original string without its trailing newlines; and when that text is not
empty, every index the loop touched lies inside the buffer. -/
theorem strip_loop_spec : ∀ (fuel : Nat) (m m1 : chunk_memory),
    m.message.length < 2 ^ 64 → strip_loop fuel m = some m1 →
      c_string m1.message = trim_newlines (c_string m.message) ∧
      (trim_newlines (c_string m.message) ≠ [] →
        ∃ extra, m1.touched = m.touched ++ extra ∧ ∀ i ∈ extra, i < m.message.length) := by
  intro fuel
  induction fuel with
  | zero => intro m m1 _ h; simp [strip_loop] at h
  | succ n ih =>
    intro m m1 hlen h
    have hle := strlen_le m.message
    rcases Nat.eq_zero_or_pos (strlen m.message) with h0 | hpos
    · -- the string is empty: nothing to trim, whatever the loop touches
      have hc : c_string m.message = [] := by simp [c_string, h0]
      have ht : trim_newlines (c_string m.message) = [] := by
        rw [hc]; simp [trim_newlines]
      refine ⟨?_, fun hne => absurd ht hne⟩
      rw [ht]
      by_cases hb : read_byte m (size_sub (strlen m.message) 1) = 10
      · simp only [strip_loop, if_pos hb] at h
        have hlen2 : (write_byte { m with touched := m.touched ++
            [size_sub (strlen m.message) 1] } (size_sub (strlen m.message) 1) 0).message.length
            < 2 ^ 64 := by
          unfold write_byte; split <;> simp <;> exact hlen
        have hs0 : strlen (write_byte { m with touched := m.touched ++
            [size_sub (strlen m.message) 1] } (size_sub (strlen m.message) 1) 0).message = 0 := by
          unfold write_byte; split
          · exact strlen_set_zero _ _ h0
          · exact h0
        have := (ih _ m1 hlen2 h).1
        rw [this]
        simp [c_string, hs0, trim_newlines]
      · simp only [strip_loop, if_neg hb, Option.some.injEq] at h
        rw [← h]
        exact hc
    · have hidx : size_sub (strlen m.message) 1 = strlen m.message - 1 :=
        size_sub_one _ hpos (by omega)
      have hin : strlen m.message - 1 < m.message.length := by omega
      have hread : read_byte m (strlen m.message - 1) =
          m.message.getD (strlen m.message - 1) 0 := by
        simp [read_byte, hin]
      simp only [strip_loop] at h
      rw [hidx] at h
      by_cases hb : read_byte m (strlen m.message - 1) = 10
      · rw [if_pos hb] at h
        have hw : write_byte { m with touched := m.touched ++ [strlen m.message - 1] }
            (strlen m.message - 1) 0 =
            { before := m.before, message := m.message.set (strlen m.message - 1) 0
              touched := m.touched ++ [strlen m.message - 1] ++ [strlen m.message - 1] } := by
          simp [write_byte, hin]
        rw [hw] at h
        obtain ⟨h1, h2⟩ := ih _ m1 (by simpa using hlen) h
        have htrim : trim_newlines (c_string m.message) =
            trim_newlines (m.message.take (strlen m.message - 1)) := by
          rw [c_string_last _ hpos, ← hread, hb]
          exact List.rdropWhile_concat_pos _ _ _ (by simp)
        simp only [c_string_set _ hpos] at h1 h2
        rw [htrim]
        refine ⟨h1, fun hne => ?_⟩
        obtain ⟨extra, he, hbound⟩ := h2 hne
        refine ⟨[strlen m.message - 1, strlen m.message - 1] ++ extra, by simp [he], ?_⟩
        intro i hi
        simp only [List.cons_append, List.nil_append, List.mem_cons] at hi
        rcases hi with hi | hi | hi
        · omega
        · omega
        · simpa using hbound i hi
      · rw [if_neg hb] at h
        simp only [Option.some.injEq] at h
        have htrim : trim_newlines (c_string m.message) = c_string m.message := by
          rw [c_string_last _ hpos, ← hread]
          exact List.rdropWhile_concat_neg _ _ _ (by simpa using hb)
        rw [← h, htrim]
        refine ⟨rfl, fun _ => ⟨[strlen m.message - 1], rfl, ?_⟩⟩
        intro i hi
        simp only [List.mem_singleton] at hi
        omega

/-- A performed request answered with a status in [200, 205] succeeds. -/
theorem complete_request_ok (t : transport) (url : String) (posted : Option String)
    (hp : t.perform = 0) (hg : t.getinfo = 0)
    (hc : 200 ≤ t.response_code ∧ t.response_code ≤ 205) :
    complete_request t url posted =
      run.done { rc := SLURM_SUCCESS, url := some url, posted := posted, logged := none,
                 touched := [] } := by
  have hc1 : t.response_code ≥ 200 ∧ t.response_code ≤ 205 := hc
  simp only [complete_request, hp, hg, hc1, ne_eq, not_true_eq_false, if_false, and_self,
    if_true]

/-- Every other performed or failed request returns, with the error code. -/
theorem complete_request_err (t : transport) (url : String) (posted : Option String)
    (h : ¬ (t.perform = 0 ∧ t.getinfo = 0 ∧ 200 ≤ t.response_code ∧ t.response_code ≤ 205)) :
    ∃ logged touched, complete_request t url posted =
      run.done { rc := SLURM_ERROR, url := some url, posted := posted, logged := logged,
                 touched := touched } := by
  unfold complete_request
  by_cases hp : t.perform = 0
  · by_cases hg : t.getinfo = 0
    · have hc : ¬ (t.response_code ≥ 200 ∧ t.response_code ≤ 205) :=
        fun hc => h ⟨hp, hg, hc.1, hc.2⟩
      by_cases hd : t.debug_profile = true
      · obtain ⟨m1, hm1⟩ := strip_trailing_newlines_terminates
          ⟨t.header_byte, (receive_body t.body ⟨xrealloc 0 [] 1, 0⟩).message, []⟩
        refine ⟨some (c_string m1.message), m1.touched, ?_⟩
        simp only [hp, hg, hc, hd, ne_eq, not_true_eq_false, if_false, if_true, hm1]
      · refine ⟨none, [], ?_⟩
        simp only [hp, hg, hc, hd, ne_eq, not_true_eq_false, if_false, Bool.false_eq_true]
    · refine ⟨none, [], ?_⟩
      simp only [hp, hg, ne_eq, not_true_eq_false, not_false_eq_true, if_false, if_true]
  · refine ⟨none, [], ?_⟩
    simp only [hp, ne_eq, not_false_eq_true, if_true]

/-- Claim C4: for every payload and every transport outcome of a started step,
`_send_data` returns, and it returns `SLURM_SUCCESS` if and only if the
transport session was set up, the request was performed, the response code
was obtained, and that code `c` satisfies `200 <= c <= 205`; for every other
status code and for every transport-level failure it returns `SLURM_ERROR`. -/
theorem send_data_return_code (s : plugin_state) (t : transport) (job : stepd_step_rec_t)
    (payload : String) (hjob : s.g_job = some job) :
    ∃ r, _send_data s t (some payload) = run.done r ∧
      (r.rc = SLURM_SUCCESS ↔
        t.global_init = 0 ∧ t.easy_init = true ∧ t.perform = 0 ∧ t.getinfo = 0 ∧
          200 ≤ t.response_code ∧ t.response_code ≤ 205) ∧
      (¬ (t.global_init = 0 ∧ t.easy_init = true ∧ t.perform = 0 ∧ t.getinfo = 0 ∧
          200 ≤ t.response_code ∧ t.response_code ≤ 205) → r.rc = SLURM_ERROR) := by
  have hne : SLURM_ERROR ≠ SLURM_SUCCESS := by decide
  by_cases hgi : t.global_init = 0
  · by_cases hei : t.easy_init = true
    · by_cases hc : t.perform = 0 ∧ t.getinfo = 0 ∧ 200 ≤ t.response_code ∧
          t.response_code ≤ 205
      · refine ⟨{ rc := SLURM_SUCCESS,
                  url := some (format_url s.prometheus_conf.host job.jobid job.node_name),
                  posted := some payload, logged := none, touched := [] }, ?_, ?_, ?_⟩
        · simp only [_send_data, hgi, hei, hjob, ne_eq, not_true_eq_false, if_false,
            Bool.true_eq_false]
          exact complete_request_ok t _ _ hc.1 hc.2.1 hc.2.2
        · exact ⟨fun _ => ⟨hgi, hei, hc⟩, fun _ => rfl⟩
        · intro h; exact absurd ⟨hgi, hei, hc⟩ h
      · obtain ⟨logged, touched, hr⟩ := complete_request_err t
          (format_url s.prometheus_conf.host job.jobid job.node_name) (some payload) hc
        refine ⟨{ rc := SLURM_ERROR,
                  url := some (format_url s.prometheus_conf.host job.jobid job.node_name),
                  posted := some payload, logged := logged, touched := touched }, ?_, ?_, ?_⟩
        · simp only [_send_data, hgi, hei, hjob, ne_eq, not_true_eq_false, if_false,
            Bool.true_eq_false]
          exact hr
        · exact ⟨fun h => absurd h hne, fun h => absurd h.2.2 hc⟩
        · intro _; rfl
    · have hei2 : t.easy_init = false := by simpa using hei
      refine ⟨{ rc := SLURM_ERROR, url := none, posted := none, logged := none,
                touched := [] }, ?_, ?_, ?_⟩
      · simp only [_send_data, hgi, hei2, ne_eq, not_true_eq_false, if_false, if_true]
      · exact ⟨fun h => absurd h hne, fun h => absurd h.2.1 hei⟩
      · intro _; rfl
  · refine ⟨{ rc := SLURM_ERROR, url := none, posted := none, logged := none,
              touched := [] }, ?_, ?_, ?_⟩
    · simp only [_send_data, hgi, ne_eq, not_false_eq_true, if_true]
    · exact ⟨fun h => absurd h hne, fun h => absurd h.1 hgi⟩
    · intro _; rfl

/-- Claim C4, witness: a push answered with status 404. -/
theorem send_data_return_code_witness :
    (started_step 123).g_job = some ⟨ACCT_GATHER_PROFILE_NOT_SET, 123, "node07"⟩ ∧
    ∃ r, _send_data (started_step 123) ⟨0, true, 0, [[111, 107, 10]], 0, 404, true, 0⟩
        (some "rss_bytes 2048\n") = run.done r ∧
      (r.rc = SLURM_SUCCESS ↔
        (0 : Nat) = 0 ∧ true = true ∧ (0 : Nat) = 0 ∧ (0 : Nat) = 0 ∧
          (200 : Int) ≤ 404 ∧ (404 : Int) ≤ 205) ∧
      (¬ ((0 : Nat) = 0 ∧ true = true ∧ (0 : Nat) = 0 ∧ (0 : Nat) = 0 ∧
          (200 : Int) ≤ 404 ∧ (404 : Int) ≤ 205) → r.rc = SLURM_ERROR) :=
  ⟨by decide, send_data_return_code (started_step 123)
    ⟨0, true, 0, [[111, 107, 10]], 0, 404, true, 0⟩ ⟨ACCT_GATHER_PROFILE_NOT_SET, 123, "node07"⟩
    "rss_bytes 2048\n" (by decide)⟩


/-- Claim C3, at a table without fields (created from a null `dataset`): the
table has size 0, the encoder loop makes no pass, so the string it hands to
`_send_data` is still the null pointer and not the empty string, and
`_send_data` reads through it in `strlen(data)`. -/
theorem add_sample_data_empty_schema (fmt_f2 : Nat → String) :
    (run_creates (started_step 123) [⟨"empty", 0, none⟩]).1 = [0] ∧
    ((run_creates (started_step 123) [⟨"empty", 0, none⟩]).2.tables.getD 0 zero_table).size = 0 ∧
    encode_sample fmt_f2
      ((run_creates (started_step 123) [⟨"empty", 0, none⟩]).2.tables.getD 0 zero_table) [] =
        none ∧
    encode_sample fmt_f2
      ((run_creates (started_step 123) [⟨"empty", 0, none⟩]).2.tables.getD 0 zero_table) [] ≠
        some (expected_payload fmt_f2 [] []) ∧
    acct_gather_profile_p_add_sample_data fmt_f2
      (run_creates (started_step 123) [⟨"empty", 0, none⟩]).2 (answering 200 [] 0) 0 [] 0 =
        run.null_deref := by
  refine ⟨by decide, by decide, rfl, ?_, rfl⟩
  intro h
  cases h

/-- Claim C5, at job id `2147483648`: both requests go to a URL whose job
segment is `-2147483648`, not the decimal numeral of the job id; job id 123
gives the URL of the example. -/
theorem url_of_large_jobid :
    _delete_data (started_step 2147483648) (answering 200 [] 0) =
      run.done { rc := SLURM_SUCCESS
                 url := some "http://collector:9091/metrics/job/-2147483648/instance/node07"
                 posted := none, logged := none, touched := [] } ∧
    _send_data (started_step 2147483648) (answering 200 [] 0) (some "rss_bytes 2048\n") =
      run.done { rc := SLURM_SUCCESS
                 url := some "http://collector:9091/metrics/job/-2147483648/instance/node07"
                 posted := some "rss_bytes 2048\n", logged := none, touched := [] } ∧
    format_url "http://collector:9091" 2147483648 "node07" ≠
      "http://collector:9091" ++ "/metrics/job/" ++ toString (2147483648 : Nat) ++
        "/instance/" ++ "node07" ∧
    format_url "http://collector:9091" 123 "node07" =
      "http://collector:9091/metrics/job/123/instance/node07" := by
  refine ⟨by decide, by decide, by decide, by decide⟩

/-- Claim C9, at an empty response body and at a body of two newlines, on a
non-success status with verbose diagnostics: the buffer holds 1 (resp. 3)
bytes, and the loop reads index `SIZE_MAX = 18446744073709551615`, the byte
before the buffer; when that byte is a newline the loop also writes it. -/
theorem strip_loop_leaves_buffer :
    (receive_body [] { message := xrealloc 0 [] 1, size := 0 }).message.length = 1 ∧
    _send_data (started_step 123) (answering 404 [] 0) (some "rss_bytes 2048\n") =
      run.done { rc := SLURM_ERROR
                 url := some "http://collector:9091/metrics/job/123/instance/node07"
                 posted := some "rss_bytes 2048\n", logged := some []
                 touched := [18446744073709551615] } ∧
    _delete_data (started_step 123) (answering 404 [] 10) =
      run.done { rc := SLURM_ERROR
                 url := some "http://collector:9091/metrics/job/123/instance/node07"
                 posted := none, logged := some []
                 touched := [18446744073709551615, 18446744073709551615,
                             18446744073709551615] } ∧
    (receive_body [[10, 10]] { message := xrealloc 0 [] 1, size := 0 }).message.length = 3 ∧
    _send_data (started_step 123) (answering 500 [[10, 10]] 0) (some "rss_bytes 2048\n") =
      run.done { rc := SLURM_ERROR
                 url := some "http://collector:9091/metrics/job/123/instance/node07"
                 posted := some "rss_bytes 2048\n", logged := some []
                 touched := [1, 1, 0, 0, 18446744073709551615] } := by
  refine ⟨by decide, by decide, by decide, by decide, by decide⟩

/-- Claim C10, at a registry of two tables with 2 and 1 fields: teardown
releases entry 1 of table 1, which has a single field name; with the tables
created in the other order, entry 1 of the two-field table is never
released. -/
theorem free_tables_uses_first_size :
    (fini (run_creates (started_step 123)
        [⟨"task", 0, some [⟨"cpu_pct", PROFILE_FIELD_DOUBLE⟩, ⟨"rss_bytes", PROFILE_FIELD_UINT64⟩]⟩,
         ⟨"energy", 0, some [⟨"watts", PROFILE_FIELD_UINT64⟩]⟩]).2).2 =
      [(0, 0), (0, 1), (1, 0), (1, 1)] ∧
    owned_names (run_creates (started_step 123)
        [⟨"task", 0, some [⟨"cpu_pct", PROFILE_FIELD_DOUBLE⟩, ⟨"rss_bytes", PROFILE_FIELD_UINT64⟩]⟩,
         ⟨"energy", 0, some [⟨"watts", PROFILE_FIELD_UINT64⟩]⟩]).2 =
      [(0, 0), (0, 1), (1, 0)] ∧
    _free_tables (run_creates (started_step 123)
        [⟨"energy", 0, some [⟨"watts", PROFILE_FIELD_UINT64⟩]⟩,
         ⟨"task", 0, some [⟨"cpu_pct", PROFILE_FIELD_DOUBLE⟩, ⟨"rss_bytes", PROFILE_FIELD_UINT64⟩]⟩]).2 =
      [(0, 0), (1, 0)] ∧
    owned_names (run_creates (started_step 123)
        [⟨"energy", 0, some [⟨"watts", PROFILE_FIELD_UINT64⟩]⟩,
         ⟨"task", 0, some [⟨"cpu_pct", PROFILE_FIELD_DOUBLE⟩, ⟨"rss_bytes", PROFILE_FIELD_UINT64⟩]⟩]).2 =
      [(0, 0), (1, 0), (1, 1)] := by
  refine ⟨by decide, by decide, by decide, by decide⟩

/-- For a job id below `2 ^ 31` the URL holds the decimal numeral of the id. -/
theorem format_url_small_jobid (host node_name : String) (jobid : Nat) (h : jobid < 2 ^ 31) :
    format_url host jobid node_name =
      host ++ "/metrics/job/" ++ toString jobid ++ "/instance/" ++ node_name := by
  unfold format_url
  rw [to_int_small jobid h]
  rfl


/-- The expected payload of a schema extended by one field. -/
theorem expected_payload_snoc (fmt_f2 : Nat → String)
    (l : List (String × acct_gather_profile_field_type_t)) :
    ∀ (data : List Nat) (name : String) (ty : acct_gather_profile_field_type_t),
      expected_payload fmt_f2 (l ++ [(name, ty)]) data =
        expected_payload fmt_f2 l data ++ field_line fmt_f2 name ty (data.getD l.length 0) := by
  induction l with
  | nil =>
    intro data name ty
    cases data <;> simp [expected_payload, field_line]
  | cons a rest ih =>
    intro data name ty
    obtain ⟨an, aty⟩ := a
    have hd : data.tail.getD rest.length 0 = data.getD (rest.length + 1) 0 := by
      cases data <;> simp
    simp only [List.cons_append, expected_payload, List.append_eq, ih, hd, List.length_cons,
      String.append_assoc]

/-- The string built after the first `n` passes of the encoder loop. -/
theorem encode_upto (fmt_f2 : Nat → String) (F : List acct_gather_profile_dataset_t)
    (hF : ∀ f ∈ F, f.type ≠ PROFILE_FIELD_NOT_SET) (nm : Option String) (data : List Nat) :
    ∀ n, n ≤ F.length →
      (List.range n).foldl
        (encode_field fmt_f2
          { names := F.map fun f => f.name, types := F.map fun f => f.type
            size := F.length, name := nm } data) none =
        if n = 0 then none
        else some (expected_payload fmt_f2 ((F.take n).map fun f => (f.name, f.type)) data) := by
  intro n
  induction n with
  | zero => intro _; simp
  | succ k ih =>
    intro hk
    have hlt : k < F.length := by omega
    rw [List.range_succ, List.foldl_append, ih (by omega)]
    have htake : F.take (k + 1) = F.take k ++ [F[k]] := by
      rw [List.take_succ, List.getElem?_eq_getElem hlt]; rfl
    have hlen : ((F.take k).map fun f => (f.name, f.type)).length = k := by
      simp; omega
    have hne := hF F[k] (List.getElem_mem hlt)
    have hty : (F.map fun f => f.type).getD k PROFILE_FIELD_NOT_SET = F[k].type := by
      simp [List.getD_eq_getElem?_getD, List.getElem?_eq_getElem hlt]
    have hnm : (F.map fun f => f.name).getD k "" = F[k].name := by
      simp [List.getD_eq_getElem?_getD, List.getElem?_eq_getElem hlt]
    have hacc : ∀ acc : String, (if k = 0 then (none : Option String) else some acc).getD ""
        = if k = 0 then "" else acc := by
      intro acc; by_cases h0 : k = 0 <;> simp [h0]
    have hzero : k = 0 →
        expected_payload fmt_f2 ((F.take k).map fun f => (f.name, f.type)) data = "" := by
      intro h0; simp [h0, expected_payload]
    simp only [List.foldl_cons, List.foldl_nil, encode_field, hty, hnm, htake, List.map_append,
      List.map_cons, List.map_nil, expected_payload_snoc, hlen, Nat.succ_ne_zero, if_false]
    have hx : ∀ text : String,
        xstrfmtcat (if k = 0 then none else some (expected_payload fmt_f2
          ((F.take k).map fun f => (f.name, f.type)) data)) text =
        some (expected_payload fmt_f2 ((F.take k).map fun f => (f.name, f.type)) data ++
          text) := by
      intro text
      unfold xstrfmtcat
      rw [hacc]
      by_cases h0 : k = 0
      · rw [if_pos h0, hzero h0]
      · rw [if_neg h0]
    cases h : F[k].type with
    | PROFILE_FIELD_NOT_SET => exact absurd h hne
    | PROFILE_FIELD_UINT64 =>
      simp only [hx]
      simp [field_line]
    | PROFILE_FIELD_DOUBLE =>
      simp only [hx]
      simp [field_line]

/-- No requested field carries the sentinel type. -/
theorem requested_fields_set (dataset : Option (List acct_gather_profile_dataset_t)) :
    ∀ f ∈ requested_fields dataset, f.type ≠ PROFILE_FIELD_NOT_SET := by
  intro f hf
  have := List.mem_takeWhile_imp hf
  simpa using this

/-- For a table with at least one field and a value array of the same length,
the encoder builds the concatenation of one line per field, in schema order. -/
theorem encode_sample_nonempty (fmt_f2 : Nat → String) (c : create_call) (data : List Nat)
    (hne : requested_fields c.dataset ≠ [])
    (hdata : data.length = (requested_fields c.dataset).length) :
    encode_sample fmt_f2 (table_of c) data =
      some (expected_payload fmt_f2
        ((requested_fields c.dataset).map fun f => (f.name, f.type)) data) := by
  have h := encode_upto fmt_f2 (requested_fields c.dataset) (requested_fields_set c.dataset)
    (some c.name) data (requested_fields c.dataset).length (le_refl _)
  have hlen : (requested_fields c.dataset).length ≠ 0 := by
    intro h0; exact hne (List.length_eq_zero.mp h0)
  rw [if_neg hlen, List.take_length] at h
  exact h

/-- The example schema `cpu_pct`, `rss_bytes`, with the C library printing
`12.35` for the double `12.345`. -/
theorem encode_sample_example :
    encode_sample (fun _ => "12.35")
      (table_of ⟨"task", 0, some [⟨"cpu_pct", PROFILE_FIELD_DOUBLE⟩,
        ⟨"rss_bytes", PROFILE_FIELD_UINT64⟩, ⟨"", PROFILE_FIELD_NOT_SET⟩]⟩)
      [4623329588493204849, 2048] = some "cpu_pct 12.35\nrss_bytes 2048\n" := by
  decide


end Prometheus
